import Mathlib

/-!
Verification of the Sales Analytics Engine of the Global Chocolate Sales
Dashboard (src/app.py), as a shallow embedding in Lean 4.

Numeric columns (amount, monthly sums) are modelled as rationals; machine
floats only matter at the division-by-zero corner of the trend-drop
detector, which is modelled explicitly (see `dropFlag`).

Layout: all definitions first, then the lemmas and theorems.
-/

namespace ChocoSales

/-! ### Analytics record model -/

/-- Calendar date as carried on a canonical sale record (no time component). -/
structure SDate where
  year : ℕ
  month : ℕ
  day : ℕ
  deriving DecidableEq, Repr

/-- One canonical sale record, with the column names produced by
`load_data` in src/app.py (lines 86-95). -/
structure SaleRecord where
  sales_person : String
  country : String
  product : String
  date : SDate
  amount : ℚ
  boxes_shipped : ℕ
  sale_type : String
  deriving DecidableEq, Repr

/-- An authenticated identity: the session username and session role
of src/app.py. -/
structure Identity where
  username : String
  role : String
  deriving DecidableEq, Repr

/-- The access-scope rule of src/app.py lines 164-166: when the session role
is the string "Sales Rep" the record set is filtered to rows whose
`sales_person` equals the session username; for every other role value the
record set is passed through unchanged. -/
def scope (records : List SaleRecord) (identity : Identity) : List SaleRecord :=
  if identity.role = "Sales Rep" then
    records.filter (fun r => r.sales_person == identity.username)
  else
    records

/-- The anomaly detector of src/app.py line 397: the rows of the result set
whose amount column strictly exceeds 15000. -/
def detectAnomalies (rs : List SaleRecord) : List SaleRecord :=
  rs.filter (fun r => decide (15000 < r.amount))

/-- The month-over-month flag test of src/app.py lines 405-406.  Pandas
`pct_change` computes `(curr - prev) / prev`; for a zero prior month the
float result is `inf` (curr positive) or `NaN` (curr zero), and neither
compares less than `-50`, so a zero prior month is modelled as an
unconditional non-flag.  (For a negative current value and a zero prior
month the float result would be `-inf`; the theorems that rely on this
model therefore carry a non-negativity hypothesis on the series.) -/
def dropFlag (prev curr : ℚ) : Bool :=
  if prev = 0 then false
  else decide (((curr - prev) / prev) * 100 < -50)

/-- The trend-drop detector of src/app.py lines 405-406: `pct_change` on the
monthly series, scaled by 100, then selection of the entries below -50.
Returns the list of positions of the monthly series that are flagged;
position 0 holds `NaN` under `pct_change` and is never flagged. -/
def detectTrendDrops (s : List ℚ) : List ℕ :=
  (List.range s.length).filter (fun i =>
    match i with
    | 0 => false
    | Nat.succ j => dropFlag (s.getD j 0) (s.getD (j + 1) 0))

/-- A concrete record used by several witnesses and counterexamples. -/
def sampleRecord : SaleRecord :=
  { sales_person := "Alice"
    country := "India"
    product := "Dark Bites"
    date := { year := 2023, month := 1, day := 5 }
    amount := 100
    boxes_shipped := 10
    sale_type := "Retail" }

/-- The month key of a record: grouping by the month period of the date
column (src/app.py line 112) keys each row by calendar year and month. -/
def monthKey (r : SaleRecord) : ℕ × ℕ := (r.date.year, r.date.month)

/-- Order used by pandas groupby when listing month groups (sorted keys). -/
def monthLeB (a b : ℕ × ℕ) : Bool :=
  decide (a.1 < b.1 ∨ (a.1 = b.1 ∧ a.2 ≤ b.2))

def insertMonth (k : ℕ × ℕ) : List (ℕ × ℕ) → List (ℕ × ℕ)
  | [] => [k]
  | m :: ms => if monthLeB k m then k :: m :: ms else m :: insertMonth k ms

def sortMonths : List (ℕ × ℕ) → List (ℕ × ℕ)
  | [] => []
  | m :: ms => insertMonth m (sortMonths ms)

/-- The monthly resample of src/app.py line 112: group the records by the
month period of the date column and sum the chosen metric — one entry per
distinct calendar month of the input, in sorted month order, holding the
sum of the metric over the records of that month. -/
def monthlySums (rs : List SaleRecord) (metric : SaleRecord → ℚ) :
    List ((ℕ × ℕ) × ℚ) :=
  (sortMonths ((rs.map monthKey).dedup)).map
    (fun k => (k, ((rs.filter (fun r => decide (monthKey r = k))).map metric).sum))

inductive ForecastError
  | insufficientData
  deriving DecidableEq, Repr

/-- Modelled from the spec: the exponential-smoothing fit invoked at
src/app.py line 114 (statsmodels ExponentialSmoothing with additive trend
and no seasonal component, then a forecast of the requested periods) is
external library code, absent from the repository.  The spec constrains
only its failure condition — the forecast fails with the
insufficient-data error when fewer than 2 distinct months of data exist —
so the fit is modelled as failing exactly when the monthly series has fewer
than 2 points; the projected values themselves, which no claim refers to,
are left abstract. -/
def fitExponentialSmoothing (series : List ℚ) (periods : ℕ) :
    Except ForecastError (List ℚ) :=
  if series.length < 2 then .error .insufficientData
  else .ok (List.replicate periods 0)

/-- The forecasting routine of src/app.py lines 110-119: resample the metric
to monthly sums, fit the smoothing model on the monthly series, and return
the historical monthly series together with the projected values. -/
def forecast_sales (rs : List SaleRecord) (metric : SaleRecord → ℚ)
    (periods : ℕ) : Except ForecastError (List ((ℕ × ℕ) × ℚ) × List ℚ) :=
  (fitExponentialSmoothing ((monthlySums rs metric).map (fun p => p.2))
      periods).map
    (fun fc => (monthlySums rs metric, fc))

/-! ### Ingestion model

A dataframe as an association list of named columns, each column a list of
cell values, mirroring how `load_data` (src/app.py lines 82-100)
manipulates the pandas dataframe column-wise. -/

inductive Cell
  | str (s : String)
  | num (q : ℚ)
  deriving DecidableEq, Repr

/-- A dataframe: named columns in order. -/
abbrev Table := List (String × List Cell)

/-- The ordered column labels of a dataframe. -/
def keysOf (t : Table) : List String := t.map (fun p => p.1)

/-- Column read by label: the first column carrying that label, if any;
a missing label is a KeyError in the source. -/
def lookupCol (t : Table) (name : String) : Option (List Cell) :=
  (t.find? (fun p => p.1 == name)).map (fun p => p.2)

/-- Column assignment by label: replaces the column in place when the label
is present, appends a new last column otherwise. -/
def setCol (t : Table) (name : String) (cells : List Cell) : Table :=
  if t.any (fun p => p.1 == name) then
    t.map (fun p => if p.1 == name then (name, cells) else p)
  else
    t ++ [(name, cells)]

/-- The regex replacement on the Amount column (src/app.py line 86):
every dollar sign, comma and space character is deleted from the string. -/
def stripCurrency (s : String) : String :=
  String.mk (s.toList.filter (fun c => !(c == '$' || c == ',' || c == ' ')))

def digitVal (c : Char) : Option ℕ :=
  if '0' ≤ c ∧ c ≤ '9' then some (c.toNat - Char.toNat '0') else none

def digitsVal (cs : List Char) : Option ℕ :=
  cs.foldl (fun acc c => acc.bind (fun n => (digitVal c).map (fun d => 10 * n + d)))
    (some 0)

/-- Split a character list at every occurrence of a separator. -/
def splitOnChar (sep : Char) : List Char → List (List Char)
  | [] => [[]]
  | c :: rest =>
    if c == sep then [] :: splitOnChar sep rest
    else
      match splitOnChar sep rest with
      | [] => [[c]]
      | g :: gs => (c :: g) :: gs

/-- Parse a plain unsigned decimal numeral, as the float coercion does on
the cleaned amount strings (integer digits, optionally a dot and fraction
digits; scientific notation does not occur in this data and is not
modelled). -/
def parseUnsignedDecimal (s : String) : Option ℚ :=
  match splitOnChar '.' s.toList with
  | [i] =>
    if i = [] then none
    else (digitsVal i).map (fun n => (n : ℚ))
  | [i, f] =>
    if i = [] ∧ f = [] then none
    else
      (digitsVal i).bind (fun n =>
        (digitsVal f).map (fun m =>
          mkRat (10 ^ f.length * n + m) (10 ^ f.length)))
  | _ => none

def parseFloat (s : String) : Option ℚ :=
  match s.toList with
  | '-' :: rest => (parseUnsignedDecimal (String.mk rest)).map (fun q => -q)
  | _ => parseUnsignedDecimal s

def monthAbbrevs : List String :=
  ["Jan", "Feb", "Mar", "Apr", "May", "Jun", "Jul", "Aug", "Sep", "Oct",
   "Nov", "Dec"]

def monthFromAbbrev (s : String) : Option ℕ :=
  (monthAbbrevs.findIdx? (fun m => m == s)).map (fun i => i + 1)

def pad2 (n : ℕ) : String := if n < 10 then "0" ++ toString n else toString n

def pad4 (n : ℕ) : String :=
  if n < 10 then "000" ++ toString n
  else if n < 100 then "00" ++ toString n
  else if n < 1000 then "0" ++ toString n
  else toString n

/-- Parse the fixed source date format of src/app.py line 87, strptime
day, dash, abbreviated month, dash, two year digits: one or two day digits,
an abbreviated month name, exactly two year digits; two-digit years 00-68
mean 2000-2068 and 69-99 mean 1969-1999, following strptime.  The day is
range-checked against 1..31. -/
def parseDateDMY (s : String) : Option (ℕ × ℕ × ℕ) :=
  match splitOnChar '-' s.toList with
  | [d, m, y] =>
    if d.length = 0 ∨ 2 < d.length ∨ y.length ≠ 2 then none
    else
      (digitsVal d).bind (fun day =>
        if day = 0 ∨ 31 < day then none
        else
          (monthFromAbbrev (String.mk m)).bind (fun mon =>
            (digitsVal y).map (fun yy =>
              ((if yy ≤ 68 then 2000 + yy else 1900 + yy), mon, day))))
  | _ => none

/-- Format a parsed date back to ISO year-month-day text, as the strftime
call does. -/
def formatISO (ymd : ℕ × ℕ × ℕ) : String :=
  pad4 ymd.1 ++ "-" ++ pad2 ymd.2.1 ++ "-" ++ pad2 ymd.2.2

/-- The date conversion of src/app.py line 87 applied to one cell; a
numeric cell cannot carry the textual source format. -/
def convertDateCell : Cell → Option String
  | .str s => (parseDateDMY s).map formatISO
  | .num _ => none

/-- Amount cleaning applied to one cell: a string is stripped of currency
formatting and parsed as a float; an already-numeric cell is kept as is. -/
def cleanAmountCell : Cell → Option ℚ
  | .str s => parseFloat (stripCurrency s)
  | .num q => some q

/-- A numeric read of a cell, as the comparison of the boxes-shipped value
against 100 requires; a string there is a TypeError in the source. -/
def numCell : Cell → Option ℚ
  | .num q => some q
  | .str _ => none

/-- The sale-type rule of src/app.py lines 89-92: Wholesale when more than
100 boxes were shipped or the amount exceeds 5000, Retail otherwise. -/
def classify (boxes_shipped amount : ℚ) : String :=
  if 100 < boxes_shipped ∨ 5000 < amount then "Wholesale" else "Retail"

/-- The column renaming of src/app.py lines 94-95. -/
def renameKey (k : String) : String :=
  if k = "Sales Person" then "sales_person"
  else if k = "Country" then "country"
  else if k = "Product" then "product"
  else if k = "Date" then "date"
  else if k = "Amount" then "amount"
  else if k = "Boxes Shipped" then "boxes_shipped"
  else k

inductive NormError
  | missingColumn (name : String)
  | malformedValue
  deriving DecidableEq, Repr

/-- The dataframe produced by the cleaning pipeline once the three source
columns have been read and coerced: the Amount and Date columns are
overwritten in place, the derived sale-type column is assigned (replacing a
column of that label if one exists, else appended last), and every column
label is then renamed. -/
def normalizedTable (t : Table) (amounts : List ℚ) (dates : List String)
    (boxes : List ℚ) : Table :=
  (setCol (setCol (setCol t "Amount" (amounts.map Cell.num))
      "Date" (dates.map Cell.str))
    "sale_type" ((boxes.zip amounts).map (fun p => Cell.str (classify p.1 p.2)))).map
    (fun p => (renameKey p.1, p.2))

/-- The cleaning pipeline of `load_data`, src/app.py lines 86-95: strip
currency formatting from the Amount column and parse it as a float, convert
the Date column from the textual source format to ISO text, derive the sale
type from the boxes shipped and the cleaned amount, and rename the columns
to canonical labels.  A missing source column is a KeyError and an
uncoercible value a ValueError in the source; both are modelled as
errors. -/
def normalize (t : Table) : Except NormError Table :=
  match lookupCol t "Amount" with
  | none => .error (.missingColumn "Amount")
  | some amountCells =>
    match lookupCol t "Date" with
    | none => .error (.missingColumn "Date")
    | some dateCells =>
      match lookupCol t "Boxes Shipped" with
      | none => .error (.missingColumn "Boxes Shipped")
      | some boxCells =>
        match amountCells.mapM cleanAmountCell, dateCells.mapM convertDateCell,
            boxCells.mapM numCell with
        | some amounts, some dates, some boxes =>
          .ok (normalizedTable t amounts dates boxes)
        | _, _, _ => .error .malformedValue

/-- A one-row raw dataframe with the six source columns of the sales CSV. -/
def rawTable : Table :=
  [("Sales Person", [Cell.str "Alice"]),
   ("Country", [Cell.str "India"]),
   ("Product", [Cell.str "Dark Bites"]),
   ("Date", [Cell.str "05-Jan-23"]),
   ("Amount", [Cell.str "$1,234.50"]),
   ("Boxes Shipped", [Cell.num 10])]

/-- The canonical dataframe `normalize` produces from `rawTable`. -/
def canonTable : Table :=
  [("sales_person", [Cell.str "Alice"]),
   ("country", [Cell.str "India"]),
   ("product", [Cell.str "Dark Bites"]),
   ("date", [Cell.str "2023-01-05"]),
   ("amount", [Cell.num (mkRat 123450 100)]),
   ("boxes_shipped", [Cell.num 10]),
   ("sale_type", [Cell.str "Retail"])]

/-! ### SQLite store model

The sales table as a column schema plus rows of values, with the statements
issued by src/app.py embedded against standard SQLite semantics: a
statement naming a column absent from the schema fails with an
OperationalError at prepare time; an UPDATE or DELETE whose WHERE clause
matches no row succeeds and affects zero rows. -/

inductive SqlVal
  | vNull
  | vInt (n : ℤ)
  | vReal (q : ℚ)
  | vText (s : String)
  deriving DecidableEq, Repr

structure DBTable where
  cols : List String
  rows : List (List SqlVal)
  deriving DecidableEq, Repr

inductive SqlError
  | noSuchColumn (name : String)
  deriving DecidableEq, Repr

/-- Position of a named column in the schema, if any. -/
def colIndex (t : DBTable) (name : String) : Option ℕ :=
  t.cols.findIdx? (fun c => c == name)

/-- The value a row holds in a named column. -/
def rowVal (t : DBTable) (row : List SqlVal) (name : String) : Option SqlVal :=
  (colIndex t name).bind (fun i => row.get? i)

/-- Overwrite the value a row holds in a named column. -/
def setRowVal (t : DBTable) (row : List SqlVal) (name : String) (v : SqlVal) :
    List SqlVal :=
  match colIndex t name with
  | none => row
  | some i => row.set i v

def applyUpdates (t : DBTable) (row : List SqlVal)
    (updates : List (String × SqlVal)) : List SqlVal :=
  updates.foldl (fun r u => setRowVal t r u.1 u.2) row

/-- The columns assigned by the UPDATE statement of src/app.py
lines 370-375, in statement order. -/
def updateSetCols : List String :=
  ["sales_person", "country", "product", "date", "amount", "boxes_shipped",
   "sale_type"]

/-- The UPDATE statement of src/app.py lines 370-375 (set the seven field
columns where the id column equals the bound id): fails with an
OperationalError naming the first referenced column absent from the schema;
otherwise rewrites every row whose id column equals the bound id — zero
matching rows is a success that changes nothing. -/
def updateSalesWhereId (t : DBTable) (vals : List SqlVal) (idv : ℤ) :
    Except SqlError DBTable :=
  match (updateSetCols ++ ["id"]).find? (fun c => !(t.cols.contains c)) with
  | some c => .error (.noSuchColumn c)
  | none =>
    .ok { t with rows := t.rows.map (fun row =>
      if rowVal t row "id" = some (.vInt idv) then
        applyUpdates t row (updateSetCols.zip vals)
      else row) }

/-- The DELETE statement of src/app.py line 384 (delete from sales where
the id column equals the bound id): fails with an OperationalError when the
schema has no id column; otherwise removes exactly the rows whose id equals
the bound id. -/
def deleteSalesWhereId (t : DBTable) (idv : ℤ) : Except SqlError DBTable :=
  if t.cols.contains "id" then
    .ok { t with rows :=
      t.rows.filter (fun row => !(rowVal t row "id" == some (.vInt idv))) }
  else .error (.noSuchColumn "id")

/-- The INSERT statement of src/app.py lines 337-340 (insert the seven
named field columns): fails when a named column is absent from the schema;
otherwise appends one row holding the given values in their named columns.
An unnamed column is filled with NULL; the autoincrement fill-in of a
declared integer primary key id column never arises on the post-ingestion
schema, which carries no id column at all. -/
def insertSale (t : DBTable) (vals : List SqlVal) : Except SqlError DBTable :=
  match updateSetCols.find? (fun c => !(t.cols.contains c)) with
  | some c => .error (.noSuchColumn c)
  | none =>
    .ok { t with rows := t.rows ++
      [t.cols.map (fun c =>
        match (updateSetCols.zip vals).find? (fun p => p.1 == c) with
        | some p => p.2
        | none => SqlVal.vNull)] }

/-- The persistence step of `load_data`, src/app.py line 98: `to_sql` in
replace mode drops the sales table and recreates it with exactly the
dataframe columns — those of the normalized dataframe, which has no id
column — then inserts the dataframe rows. -/
def toSqlReplace (df : Table) : DBTable :=
  { cols := keysOf df,
    rows := (df.map (fun p => p.2.map (fun cell =>
      match cell with
      | .str s => SqlVal.vText s
      | .num q => SqlVal.vReal q))).transpose }

/-- The sales schema created by `init_db` (src/app.py lines 34-45),
before any ingestion: it does carry an id column. -/
def initSalesTable : DBTable :=
  { cols := ["id", "sales_person", "country", "product", "date", "amount",
             "boxes_shipped", "sale_type"],
    rows := [] }

/-- A store state on the `init_db` schema holding one record with id 1. -/
def presentIdTable : DBTable :=
  { cols := initSalesTable.cols,
    rows := [[.vInt 1, .vText "Alice", .vText "India", .vText "Dark Bites",
              .vText "2023-01-05", .vReal 100, .vInt 10, .vText "Retail"]] }

/-- Fresh field values bound into an update or insert statement. -/
def updateVals : List SqlVal :=
  [.vText "Bob", .vText "UK", .vText "Milk Bar", .vText "2023-02-01",
   .vReal 10, .vInt 5, .vText "Retail"]

/-- The six column labels of the source sales CSV. -/
def stdRawCols : List String :=
  ["Sales Person", "Country", "Product", "Date", "Amount", "Boxes Shipped"]

/-- The seven canonical column labels of the normalized dataframe. -/
def canonCols : List String :=
  ["sales_person", "country", "product", "date", "amount", "boxes_shipped",
   "sale_type"]

/-! ### Lemmas and theorems -/

lemma dropFlag_eq_true_iff (p c : ℚ) :
    dropFlag p c = true ↔ p ≠ 0 ∧ ((c - p) / p) * 100 < -50 := by
  unfold dropFlag
  by_cases hp : p = 0 <;> simp [hp]

lemma insertMonth_length (k : ℕ × ℕ) (l : List (ℕ × ℕ)) :
    (insertMonth k l).length = l.length + 1 := by
  induction l with
  | nil => rfl
  | cons m ms ih =>
    unfold insertMonth
    split
    · rfl
    · simp only [List.length_cons, ih]

lemma sortMonths_length (l : List (ℕ × ℕ)) :
    (sortMonths l).length = l.length := by
  induction l with
  | nil => rfl
  | cons m ms ih =>
    unfold sortMonths
    rw [insertMonth_length, ih, List.length_cons]

lemma normalize_ok_shape (t r : Table) (h : normalize t = .ok r) :
    ∃ a d b, r = normalizedTable t a d b := by
  unfold normalize at h
  repeat' split at h
  any_goals exact Except.noConfusion h
  exact ⟨_, _, _, (Except.ok.inj h).symm⟩

lemma renameKey_ne_Amount (k : String) : renameKey k ≠ "Amount" := by
  unfold renameKey
  repeat' split
  any_goals decide
  assumption

lemma find?_rename_Amount (l : Table) :
    (l.map (fun p => (renameKey p.1, p.2))).find? (fun p => p.1 == "Amount")
      = none := by
  induction l with
  | nil => rfl
  | cons p l ih =>
    rw [List.map_cons, List.find?_cons_of_neg]
    · exact ih
    · simp [renameKey_ne_Amount p.1]

lemma lookupCol_rename_Amount (l : Table) :
    lookupCol (l.map (fun p => (renameKey p.1, p.2))) "Amount" = none := by
  unfold lookupCol
  rw [find?_rename_Amount]
  rfl

lemma normalize_ok_no_Amount (t r : Table) (h : normalize t = .ok r) :
    lookupCol r "Amount" = none := by
  obtain ⟨a, d, b, rfl⟩ := normalize_ok_shape t r h
  unfold normalizedTable
  exact lookupCol_rename_Amount _

lemma normalize_rawTable : normalize rawTable = .ok canonTable := rfl

lemma normalize_canonTable :
    normalize canonTable = .error (.missingColumn "Amount") := rfl

lemma any_key_eq (t : Table) (n : String) :
    t.any (fun p => p.1 == n) = (keysOf t).any (fun k => k == n) := by
  induction t with
  | nil => rfl
  | cons p l ih =>
    unfold keysOf at ih ⊢
    simp [ih]

lemma keysOf_map_rename (l : Table) :
    keysOf (l.map (fun p => (renameKey p.1, p.2))) = (keysOf l).map renameKey := by
  unfold keysOf
  rw [List.map_map, List.map_map]
  rfl

lemma keysOf_setCol (u : Table) (n : String) (cs : List Cell) :
    keysOf (setCol u n cs)
      = if (keysOf u).any (fun k => k == n) then keysOf u
        else keysOf u ++ [n] := by
  unfold setCol
  rw [← any_key_eq]
  by_cases hc : u.any (fun p => p.1 == n) = true
  · rw [if_pos hc, if_pos hc]
    unfold keysOf
    rw [List.map_map]
    apply List.map_congr_left
    intro p hp
    by_cases h : p.1 = n
    · simp [h]
    · simp [h]
  · rw [if_neg hc, if_neg hc]
    unfold keysOf
    simp

lemma normalize_ok_cols (t r : Table) (h : normalize t = .ok r)
    (hcols : keysOf t = stdRawCols) : keysOf r = canonCols := by
  obtain ⟨a, d, b, rfl⟩ := normalize_ok_shape t r h
  unfold normalizedTable
  rw [keysOf_map_rename]
  simp only [keysOf_setCol, hcols]
  decide

lemma updateSalesWhereId_canonCols (t : DBTable) (hc : t.cols = canonCols)
    (vals : List SqlVal) (idv : ℤ) :
    updateSalesWhereId t vals idv = .error (.noSuchColumn "id") := by
  unfold updateSalesWhereId
  simp only [hc]
  have hfind : (updateSetCols ++ ["id"]).find?
      (fun c => !(canonCols.contains c)) = some "id" := by decide
  rw [hfind]

lemma deleteSalesWhereId_canonCols (t : DBTable) (hc : t.cols = canonCols)
    (idv : ℤ) :
    deleteSalesWhereId t idv = .error (.noSuchColumn "id") := by
  unfold deleteSalesWhereId
  simp only [hc]
  rw [if_neg (by decide : ¬(canonCols.contains "id" = true))]

/-- Claim C1, counterexample: for the unrecognized role "Manager" the scope
operation returns the whole record set, not the empty set the claim
requires — the code fails open, not closed. -/
theorem C1_counterexample :
    scope [sampleRecord] { username := "Mallory", role := "Manager" } ≠ [] := by
  decide

/-- Claim C1 (amended): the scope operation filters the record set to the
rows whose `sales_person` equals the username of the identity exactly when
the role is "Sales Rep", and returns the record set unchanged for every
other role value — including "Owner" and any unrecognized role (it fails
open). -/
theorem C1_scope_amended (records : List SaleRecord) (identity : Identity) :
    (identity.role = "Sales Rep" →
      scope records identity
        = records.filter (fun r => r.sales_person == identity.username)) ∧
    (identity.role ≠ "Sales Rep" → scope records identity = records) := by
  constructor <;> intro h <;> simp [scope, h]

/-- Claim C1, witness: the amended rule evaluated at a concrete record set,
once for an Owner identity and once for a Sales Rep identity. -/
theorem C1_witness :
    scope [sampleRecord] { username := "Bob", role := "Owner" } = [sampleRecord] ∧
    scope [sampleRecord] { username := "Alice", role := "Sales Rep" }
      = List.filter (fun r => r.sales_person == "Alice") [sampleRecord] :=
  ⟨(C1_scope_amended [sampleRecord] { username := "Bob", role := "Owner" }).2
      (by decide),
   (C1_scope_amended [sampleRecord] { username := "Alice", role := "Sales Rep" }).1
      rfl⟩

/-- Claim C2, counterexample: on a store whose schema has the id column and
whose only record has id 1, an update targeting the absent id 2 does not
fail at all — it succeeds and affects zero rows, leaving the store
unchanged; no NotFoundError exists anywhere in the code. -/
theorem C2_counterexample :
    updateSalesWhereId presentIdTable updateVals 2 = .ok presentIdTable := rfl

/-- Claim C2 (amended): for every store state whose schema carries all the
columns the statement references, an update targeting an id that matches no
row leaves the full record set unchanged — but it does not fail with
NotFoundError: it succeeds with zero rows affected (no error of any kind is
raised). -/
theorem C2_update_absent_id (t : DBTable) (vals : List SqlVal) (idv : ℤ)
    (hall : ∀ c ∈ updateSetCols ++ ["id"], c ∈ t.cols)
    (habsent : ∀ row ∈ t.rows, rowVal t row "id" ≠ some (.vInt idv)) :
    updateSalesWhereId t vals idv = .ok t := by
  have hrows : (t.rows.map (fun row =>
      if rowVal t row "id" = some (.vInt idv) then
        applyUpdates t row (updateSetCols.zip vals)
      else row)) = t.rows := by
    have hid : ∀ row ∈ t.rows,
        (if rowVal t row "id" = some (SqlVal.vInt idv) then
          applyUpdates t row (updateSetCols.zip vals)
        else row) = id row := by
      intro row hrow
      rw [if_neg (habsent row hrow)]
      rfl
    rw [List.map_congr_left hid, List.map_id]
  have hfind : (updateSetCols ++ ["id"]).find?
      (fun c => !(t.cols.contains c)) = none := by
    rw [List.find?_eq_none]
    intro c hc
    simp [hall c hc]
  unfold updateSalesWhereId
  rw [hfind]
  show Except.ok { t with rows := (t.rows.map (fun row =>
      if rowVal t row "id" = some (.vInt idv) then
        applyUpdates t row (updateSetCols.zip vals)
      else row)) } = Except.ok t
  rw [hrows]

/-- Claim C2, witness: the amended statement at the concrete one-record
store, targeting the absent id 2. -/
theorem C2_witness :
    updateSalesWhereId presentIdTable updateVals 2 = .ok presentIdTable :=
  C2_update_absent_id presentIdTable updateVals 2 (by decide) (by decide)

/-- Claim C3: the ingestion-time classification (applied row-wise inside
`normalize` through `normalizedTable`) assigns Wholesale exactly when more
than 100 boxes were shipped or the amount exceeds 5000 — either condition
alone suffices — and Retail in every other case. -/
theorem C3_classify_spec (boxes_shipped amount : ℚ) :
    (classify boxes_shipped amount = "Wholesale" ↔
      (100 < boxes_shipped ∨ 5000 < amount)) ∧
    (classify boxes_shipped amount = "Retail" ↔
      ¬(100 < boxes_shipped ∨ 5000 < amount)) := by
  unfold classify
  by_cases h : 100 < boxes_shipped ∨ 5000 < amount <;> simp [h]

/-- Claim C4 (amended): normalization is not idempotent; on the contrary,
whenever it succeeds, re-applying it to the canonical output fails with a
missing-column error, because the renaming step removed the source label
Amount (and likewise changed the other source labels and the date
format). -/
theorem C4_normalize_not_idempotent (t r : Table) (h : normalize t = .ok r) :
    normalize r = .error (.missingColumn "Amount") := by
  have hA := normalize_ok_no_Amount t r h
  unfold normalize
  rw [hA]

/-- Claim C4, counterexample: on the concrete raw dataframe `rawTable`,
normalizing twice does not equal normalizing once — the first application
succeeds and the second fails, because the canonical output no longer has
an Amount column and its dates are no longer in the source format. -/
theorem C4_counterexample :
    (normalize rawTable).bind normalize ≠ normalize rawTable := by
  rw [normalize_rawTable]
  intro hcontra
  rw [show (Except.ok canonTable : Except NormError Table).bind normalize
        = normalize canonTable from rfl, normalize_canonTable] at hcontra
  exact Except.noConfusion hcontra

/-- Claim C4, witness: the amended statement applied to the concrete raw
dataframe whose normalization succeeds. -/
theorem C4_witness : normalize canonTable = .error (.missingColumn "Amount") :=
  C4_normalize_not_idempotent rawTable canonTable normalize_rawTable

/-- Claim C5: when the records of the result set span fewer than 2 distinct
calendar months, the forecast operation fails with the insufficient-data
error and produces no forecast series. -/
theorem C5_forecast_insufficient (rs : List SaleRecord)
    (metric : SaleRecord → ℚ) (periods : ℕ)
    (h : ((rs.map monthKey).dedup).length < 2) :
    forecast_sales rs metric periods = .error .insufficientData := by
  unfold forecast_sales fitExponentialSmoothing
  have hlen : (((monthlySums rs metric).map (fun p => p.2)).length < 2) := by
    rw [List.length_map]
    unfold monthlySums
    rw [List.length_map, sortMonths_length]
    exact h
  rw [if_pos hlen]
  rfl

/-- Claim C5, witness: a single-record result set spans one month, and the
forecast on it fails with the insufficient-data error. -/
theorem C5_witness :
    forecast_sales [sampleRecord] (fun r => r.amount) 6
      = .error .insufficientData :=
  C5_forecast_insufficient [sampleRecord] (fun r => r.amount) 6 (by decide)

/-- Claim C6: the anomaly detector returns exactly the records of the result
set whose amount is strictly greater than 15000, and it is a sublist of its
input (it reorders nothing and mutates nothing; as a Lean function it is
pure and deterministic by construction). -/
theorem C6_detectAnomalies_spec (rs : List SaleRecord) :
    (∀ r, r ∈ detectAnomalies rs ↔ r ∈ rs ∧ 15000 < r.amount) ∧
    (detectAnomalies rs).Sublist rs := by
  constructor
  · intro r
    simp [detectAnomalies, List.mem_filter]
  · exact List.filter_sublist rs

/-- Claim C7: on a non-negative monthly series, the trend-drop detector
flags exactly the positions after the first whose percent change from the
prior month, curr minus prev over prev, scaled by 100, is strictly less
than -50, and the first position is never flagged.  (The percent-change
formula of the claim is read over ℚ, where division by a zero prior month
yields 0, matching the float behaviour — never a flag — on non-negative
data.) -/
theorem C7_detectTrendDrops_spec (s : List ℚ) (hpos : ∀ x ∈ s, 0 ≤ x) :
    (∀ i, i ∈ detectTrendDrops s ↔
      1 ≤ i ∧ i < s.length ∧
        ((s.getD i 0 - s.getD (i - 1) 0) / s.getD (i - 1) 0) * 100 < -50) ∧
    0 ∉ detectTrendDrops s := by
  have hmem : ∀ i, i ∈ detectTrendDrops s ↔
      1 ≤ i ∧ i < s.length ∧
        ((s.getD i 0 - s.getD (i - 1) 0) / s.getD (i - 1) 0) * 100 < -50 := by
    intro i
    unfold detectTrendDrops
    rw [List.mem_filter, List.mem_range]
    cases i with
    | zero => simp
    | succ j =>
      simp only [Nat.succ_sub_one]
      rw [dropFlag_eq_true_iff]
      by_cases hp : s.getD j 0 = 0
      · rw [hp]
        simp [div_zero]
      · exact ⟨fun h => ⟨Nat.succ_le_succ (Nat.zero_le j), h.1, h.2.2⟩,
               fun h => ⟨h.2.1, hp, h.2.2⟩⟩
  refine ⟨hmem, ?_⟩
  intro h0
  have := (hmem 0).mp h0
  omega

/-- Claim C7, witness: on the monthly series 1000, 1000, 400 (all
non-negative) the third month is flagged, exactly as the characterization
demands at position 2 (a -60 percent change). -/
theorem C7_witness : 2 ∈ detectTrendDrops [(1000 : ℚ), 1000, 400] :=
  ((C7_detectTrendDrops_spec [(1000 : ℚ), 1000, 400] (by decide)).1 2).mpr
    ⟨by norm_num, by norm_num, by norm_num [List.getD]⟩

/-- Claim C9: on a non-negative monthly series, a position holding a zero
sum never causes the following position to be flagged; the detector is a
total function, so the comparison never raises. -/
theorem C9_zero_prior_month_not_flagged (s : List ℚ) (hpos : ∀ x ∈ s, 0 ≤ x)
    (i : ℕ) (hi : i < s.length) (hz : s.getD i 0 = 0) :
    (i + 1) ∉ detectTrendDrops s := by
  unfold detectTrendDrops
  rw [List.mem_filter]
  rintro ⟨-, hmem⟩
  rw [List.getD_eq_getElem?_getD] at hz
  simp [dropFlag, hz] at hmem

/-- Claim C9, witness: in the series 1000, 0, 5 the month following the
zero month is not flagged. -/
theorem C9_witness : 1 + 1 ∉ detectTrendDrops [(1000 : ℚ), 0, 5] :=
  C9_zero_prior_month_not_flagged [(1000 : ℚ), 0, 5] (by decide) 1 (by decide)
    (by decide)

/-- Claim C10, counterexample: after ingesting the concrete raw dataframe,
an id-targeted update does not succeed matching zero rows (which would
leave the store as it was, under an ok result) — it fails with the
OperationalError for the missing id column. -/
theorem C10_counterexample :
    updateSalesWhereId (toSqlReplace canonTable) updateVals 1
        ≠ .ok (toSqlReplace canonTable) := by
  intro hcontra
  rw [show updateSalesWhereId (toSqlReplace canonTable) updateVals 1
        = .error (.noSuchColumn "id") from rfl] at hcontra
  exact Except.noConfusion hcontra

/-- Claim C10 (amended): bulk ingestion persists the canonical set with a
full table replace recreating the sales table from the normalized dataframe
columns, which contain no id column; therefore, after any ingestion of a
standard six-column raw dataframe, no ingested record carries an id, and
every id-targeted update or delete fails with an OperationalError naming
the missing id column — it does not merely match zero rows — including
after records are inserted through the individual create path, which does
not restore the id column. -/
theorem C10_ingest_update_no_id_column (t df : Table) (h : normalize t = .ok df)
    (hcols : keysOf t = stdRawCols) (vals vals2 : List SqlVal) (idv idv2 : ℤ) :
    updateSalesWhereId (toSqlReplace df) vals idv
        = .error (.noSuchColumn "id") ∧
    deleteSalesWhereId (toSqlReplace df) idv = .error (.noSuchColumn "id") ∧
    (∀ t2, insertSale (toSqlReplace df) vals2 = .ok t2 →
      updateSalesWhereId t2 vals idv2 = .error (.noSuchColumn "id")) := by
  have hc : (toSqlReplace df).cols = canonCols := normalize_ok_cols t df h hcols
  refine ⟨updateSalesWhereId_canonCols _ hc vals idv,
    deleteSalesWhereId_canonCols _ hc idv, ?_⟩
  intro t2 hins
  have hc2 : t2.cols = canonCols := by
    unfold insertSale at hins
    split at hins
    · exact Except.noConfusion hins
    · rw [← Except.ok.inj hins]
      exact hc
  exact updateSalesWhereId_canonCols t2 hc2 vals idv2

/-- Claim C10, witness: the amended statement instantiated at the concrete
ingestion of `rawTable`. -/
theorem C10_witness :
    deleteSalesWhereId (toSqlReplace canonTable) 7
      = .error (.noSuchColumn "id") :=
  (C10_ingest_update_no_id_column rawTable canonTable normalize_rawTable rfl
    updateVals updateVals 7 7).2.1

end ChocoSales
